import Mathlib

/-!
# Shader gallery rendering core — verification development

Shallow embedding of the rendering core of the shader-gallery repository:

* `src/lib/webgl-utils.ts` — `compileShader`, `createProgram`, `setUniform`;
* `src/components/shader-gallery.tsx` — the shader catalog (`SHADERS`,
  `getShaderById`, `getDefaultUniforms`) and its descriptor types;
* `src/components/shader-canvas.tsx` — `lerp`, `updateFPSMonitor`,
  `initShader`, the per-frame render loop, and the mouse handlers;
* `src/app` page component — `handleShaderSelect` and the React state wiring.

JavaScript numbers are modelled as rationals (`ℚ`); the GL driver (compile /
link success, info logs, uniform locations) is modelled by explicit oracle
parameters, since the driver's verdict is an external input to this code.
GLSL source text is opaque to every property verified here, so the
`fragmentSource` / `description` string fields of the catalog entries are not
carried in the embedding; compile outcomes are supplied by the driver oracle.
-/

namespace ShaderGallery

/-- Type `UniformType` from `webgl-utils.ts`:
`"float" | "int" | "vec2" | "vec3" | "vec4"`. -/
inductive UniformType where
  | float
  | int
  | vec2
  | vec3
  | vec4
deriving DecidableEq, Repr

/-- The `type` field of a `ShaderUniform` descriptor in `shader-gallery.tsx`:
`'float' | 'int'`. -/
inductive ParamType where
  | float
  | int
deriving DecidableEq, Repr

/-- The `UniformType` a descriptor's declared numeric kind corresponds to. -/
def ParamType.toUniformType : ParamType → UniformType
  | .float => .float
  | .int => .int

/-- Structure `ShaderUniform` from `shader-gallery.tsx`: a parameter descriptor.
Numeric fields are JS numbers, modelled as `ℚ`. -/
structure ShaderUniform where
  name : String
  label : String
  type : ParamType
  min : ℚ
  max : ℚ
  step : ℚ
  defaultValue : ℚ
deriving DecidableEq, Repr

/-- Structure `ShaderDefinition` from `shader-gallery.tsx`. The `description` and
`fragmentSource` string fields are opaque to all verified properties and are
omitted; compile outcomes are modelled by a driver oracle. -/
structure ShaderDefinition where
  id : String
  name : String
  uniforms : List ShaderUniform
deriving DecidableEq, Repr

/-- The `plasma` catalog entry. -/
def plasmaShader : ShaderDefinition :=
  { id := "plasma"
    name := "Plasma Waves"
    uniforms :=
      [ { name := "u_speed", label := "Speed", type := .float,
          min := 0.5, max := 2, step := 0.1, defaultValue := 1 },
        { name := "u_scale", label := "Scale", type := .float,
          min := 1, max := 10, step := 0.5, defaultValue := 4 },
        { name := "u_colorShift", label := "Color Shift", type := .float,
          min := 0, max := 1, step := 0.05, defaultValue := 0.5 } ] }

/-- The `sphere` catalog entry. -/
def sphereShader : ShaderDefinition :=
  { id := "sphere"
    name := "Raymarched Sphere"
    uniforms :=
      [ { name := "u_rotationSpeed", label := "Rotation Speed", type := .float,
          min := 0, max := 2, step := 0.1, defaultValue := 0.5 },
        { name := "u_glossiness", label := "Glossiness", type := .float,
          min := 0.1, max := 1, step := 0.05, defaultValue := 0.5 },
        { name := "u_sphereScale", label := "Sphere Scale", type := .float,
          min := 0.5, max := 1.5, step := 0.1, defaultValue := 1 } ] }

/-- The `noise` catalog entry. -/
def noiseShader : ShaderDefinition :=
  { id := "noise"
    name := "Fractal Noise"
    uniforms :=
      [ { name := "u_octaves", label := "Octaves", type := .int,
          min := 1, max := 6, step := 1, defaultValue := 4 },
        { name := "u_persistence", label := "Persistence", type := .float,
          min := 0.3, max := 0.7, step := 0.05, defaultValue := 0.5 },
        { name := "u_zoom", label := "Zoom", type := .float,
          min := 1, max := 5, step := 0.25, defaultValue := 2 } ] }

/-- The `kaleidoscope` catalog entry. -/
def kaleidoscopeShader : ShaderDefinition :=
  { id := "kaleidoscope"
    name := "Kaleidoscope"
    uniforms :=
      [ { name := "u_segments", label := "Segments", type := .int,
          min := 4, max := 16, step := 1, defaultValue := 8 },
        { name := "u_rotationSpeed", label := "Rotation Speed", type := .float,
          min := 0, max := 2, step := 0.1, defaultValue := 0.5 },
        { name := "u_zoom", label := "Zoom", type := .float,
          min := 0.5, max := 3, step := 0.1, defaultValue := 1.5 } ] }

/-- The `aurora` catalog entry. -/
def auroraShader : ShaderDefinition :=
  { id := "aurora"
    name := "Aurora Borealis"
    uniforms :=
      [ { name := "u_intensity", label := "Intensity", type := .float,
          min := 0.5, max := 2, step := 0.1, defaultValue := 1 },
        { name := "u_speed", label := "Speed", type := .float,
          min := 0.5, max := 2, step := 0.1, defaultValue := 1 },
        { name := "u_waveHeight", label := "Wave Height", type := .float,
          min := 0.3, max := 1, step := 0.05, defaultValue := 0.6 } ] }

/-- Constant `SHADERS` from `shader-gallery.tsx`: the full ordered catalog. -/
def SHADERS : List ShaderDefinition :=
  [plasmaShader, sphereShader, noiseShader, kaleidoscopeShader, auroraShader]

/-- Function `getShaderById` from `shader-gallery.tsx`:
`SHADERS.find(shader => shader.id === id)`. -/
def getShaderById (id : String) : Option ShaderDefinition :=
  SHADERS.find? (fun shader => shader.id == id)

/-- Function `getDefaultUniforms` from `shader-gallery.tsx`: the map sending each
declared parameter name to its `defaultValue` (association list, in
declaration order as the JS object iterates insertion order). -/
def getDefaultUniforms (shader : ShaderDefinition) : List (String × ℚ) :=
  shader.uniforms.map (fun u => (u.name, u.defaultValue))

/-- Tests whether `pat` matches at the head of `s` (substring helper). -/
def leadingMatch : List Char → List Char → Bool
  | [], _ => true
  | _ :: _, [] => false
  | a :: as, b :: bs => a == b && leadingMatch as bs

/-- Tests whether `pat` occurs somewhere in `s` (substring helper). -/
def occursIn (pat : List Char) : List Char → Bool
  | [] => pat.isEmpty
  | c :: cs => leadingMatch pat (c :: cs) || occursIn pat cs

/-- JavaScript `String.prototype.includes` for a non-empty pattern, as used by
the render loop (`name.includes("octave")`, `name.includes("segment")`). -/
def strIncludes (s pat : String) : Bool :=
  occursIn pat.data s.data

/-- The render loop's uniform-kind heuristic (`shader-canvas.tsx`, render):
`const isInt = name.includes("octave") || name.includes("segment")`. -/
def isIntUniformName (name : String) : Bool :=
  strIncludes name "octave" || strIncludes name "segment"

/-- The numeric kind the render loop passes to `setUniform` for a custom
uniform entry named `name`: `isInt ? "int" : "float"`. -/
def marshalKind (name : String) : UniformType :=
  if isIntUniformName name then .int else .float

/-- Function `lerp` from `shader-canvas.tsx`: `a + (b - a) * t`. -/
def lerp (a b t : ℚ) : ℚ :=
  a + (b - a) * t

/-- A 2-D pointer position (the `{x, y}` objects in `shader-canvas.tsx`). -/
structure Mouse where
  x : ℚ
  y : ℚ
deriving DecidableEq, Repr

/-- The render loop's per-frame pointer smoothing: `lerp(current, target, 0.1)`
applied to each axis. -/
def mouseStep (current target : Mouse) : Mouse :=
  { x := lerp current.x target.x 0.1
    y := lerp current.y target.y 0.1 }

/-- Constant `FPS_SAMPLE_SIZE` from `shader-canvas.tsx`. -/
def FPS_SAMPLE_SIZE : Nat := 30

/-- Structure `FPSMonitor` from `shader-canvas.tsx`. `samples` stores the per-frame
`1000 / delta` values, newest last. -/
structure FPSMonitor where
  samples : List ℚ
  lastTime : ℚ
  currentFPS : ℚ
deriving DecidableEq, Repr

/-- Function `createFPSMonitor` from `shader-canvas.tsx` (`performance.now()` passed
explicitly). -/
def createFPSMonitor (now : ℚ) : FPSMonitor :=
  { samples := [], lastTime := now, currentFPS := 60 }

/-- Function `updateFPSMonitor` from `shader-canvas.tsx`. `push` appends at the end,
`shift()` drops the head; the average divides by the (positive) length. -/
def updateFPSMonitor (now : ℚ) (monitor : FPSMonitor) : FPSMonitor :=
  let delta := now - monitor.lastTime
  if delta > 0 then
    let fps := 1000 / delta
    let pushed := monitor.samples ++ [fps]
    let samples :=
      if pushed.length > FPS_SAMPLE_SIZE then pushed.tail else pushed
    let avgFPS := samples.foldl (· + ·) 0 / (samples.length : ℚ)
    { samples := samples, lastTime := now, currentFPS := avgFPS }
  else
    { monitor with lastTime := now }

/-- The value argument of `setUniform` (`number | number[]`). -/
inductive UniformValue where
  | num (v : ℚ)
  | vec (vs : List ℚ)
deriving DecidableEq, Repr

/-- A GPU command issued by `setUniform` (`gl.uniform1f` …), recording the
resolved location and the payload. The TS switch dispatches only on the
declared `type` and passes `value` through unchanged (the `as` casts are
erased at runtime), so each command carries the raw payload. -/
inductive GLUniformCmd where
  | uniform1f (loc : Nat) (v : UniformValue)
  | uniform1i (loc : Nat) (v : UniformValue)
  | uniform2fv (loc : Nat) (v : UniformValue)
  | uniform3fv (loc : Nat) (v : UniformValue)
  | uniform4fv (loc : Nat) (v : UniformValue)
deriving DecidableEq, Repr

/-- Function `setUniform` from `webgl-utils.ts`. `locs` is the driver's
`getUniformLocation` for the active program: `none` models a `null` location
(unknown or optimized-out uniform), in which case the function returns
without issuing any command — it is total and never fails. -/
def setUniform (locs : String → Option Nat) (name : String)
    (type : UniformType) (value : UniformValue) : List GLUniformCmd :=
  match locs name with
  | none => []
  | some loc =>
    match type with
    | .float => [.uniform1f loc value]
    | .int => [.uniform1i loc value]
    | .vec2 => [.uniform2fv loc value]
    | .vec3 => [.uniform3fv loc value]
    | .vec4 => [.uniform4fv loc value]

/-- One `setUniform` call requested by the render loop: name, numeric kind,
payload. JS objects iterate string keys in insertion order, so the
`ParameterValues` map (`Record<string, number>`) is modelled as an
association list. -/
abbrev UniformCall := String × UniformType × UniformValue

/-- The custom-uniform loop of the render callback (`shader-canvas.tsx`):
`for (const [name, value] of Object.entries(currentUniforms))` with
`setUniform(gl, program, name, isInt ? "int" : "float", value)`. Only entries
present in the map are visited. -/
def customUploads (uniformsMap : List (String × ℚ)) : List UniformCall :=
  uniformsMap.map (fun e => (e.1, marshalKind e.1, UniformValue.num e.2))

/-- The slider value shown by `ShaderControlsPanel`
(`shader-controls-panel.tsx`): `uniforms[uniform.name] ?? uniform.defaultValue`
— the only place a missing key falls back to the descriptor's default. -/
def displayValue (uniformsMap : List (String × ℚ)) (u : ShaderUniform) : ℚ :=
  match uniformsMap.lookup u.name with
  | some v => v
  | none => u.defaultValue

/-- An RGBA clear color (`gl.clearColor` arguments). -/
abbrev ClearColor := ℚ × ℚ × ℚ × ℚ

/-- The fixed dark fallback / background color `(0.02, 0.02, 0.05, 1.0)`. -/
def darkFallback : ClearColor := (0.02, 0.02, 0.05, 1)

/-- The mutable refs of `ShaderCanvas` read and written by one invocation of
the `render` callback. `gl` is non-null for every scheduled frame (the mount
effect returns before scheduling when context creation fails), so it is not a
field. `canvasW`/`canvasH` are the canvas's current device-pixel size. -/
structure RenderState where
  program : Option Nat
  vao : Option Nat
  hasError : Bool
  startTime : ℚ
  targetMouse : Mouse
  currentMouse : Mouse
  fps : FPSMonitor
  uniformsMap : List (String × ℚ)
  canvasW : ℚ
  canvasH : ℚ
deriving DecidableEq, Repr

/-- The externally visible actions of one frame. `uploads` lists the
`setUniform` calls in order; `drew` records whether `gl.drawArrays` ran;
`rescheduled` records the `requestAnimationFrame(render)` call. -/
structure FrameOut where
  cleared : Option ClearColor
  uploads : List UniformCall
  drew : Bool
  rescheduled : Bool
deriving DecidableEq, Repr

/-- The `render` callback of `shader-canvas.tsx` for one frame at wall-clock
time `now` (ms): early-out (with dark fallback clear when the error flag is
set) when there is no program/VAO or the error flag is set; otherwise update
the FPS monitor, smooth the pointer, compute elapsed seconds, clear, upload
the three standard uniforms and every entry of the current map, draw, and
reschedule. -/
def renderFrame (now : ℚ) (st : RenderState) : RenderState × FrameOut :=
  if st.program.isNone || st.vao.isNone || st.hasError then
    (st,
      { cleared := if st.hasError then some darkFallback else none
        uploads := []
        drew := false
        rescheduled := true })
  else
    let fps := updateFPSMonitor now st.fps
    let cm := mouseStep st.currentMouse st.targetMouse
    let time := (now - st.startTime) / 1000
    let uploads : List UniformCall :=
      [("u_time", .float, .num time),
       ("u_resolution", .vec2, .vec [st.canvasW, st.canvasH]),
       ("u_mouse", .vec2, .vec [cm.x, cm.y])]
      ++ customUploads st.uniformsMap
    ({ st with fps := fps, currentMouse := cm },
      { cleared := some darkFallback
        uploads := uploads
        drew := true
        rescheduled := true })

/-- A device-resource event: creation or release of a stage (shader) handle
or of a program handle, identified by the id the driver allotted. -/
inductive GLEvent where
  | createShader (id : Nat)
  | deleteShader (id : Nat)
  | createProgram (id : Nat)
  | deleteProgram (id : Nat)
deriving DecidableEq, Repr

/-- The GL driver's verdicts for one `initShader` run, an external input:
whether each `createShader`/`createProgram` allocation succeeds, whether each
compile / the link succeeds, and the diagnostic info logs the driver would
report on failure. -/
structure Driver where
  vsCreateOk : Bool
  vsCompileOk : Bool
  fsCreateOk : Bool
  fsCompileOk : Bool
  progCreateOk : Bool
  linkOk : Bool
  vsLog : String
  fsLog : String
  linkLog : String
deriving DecidableEq, Repr

/-- Result of one modelled `compileShader` call (`webgl-utils.ts`): the
returned handle (or `none`), the resource events, the `console.error` lines,
and the driver's next fresh handle id. -/
structure CompileResult where
  shader : Option Nat
  events : List GLEvent
  console : List String
  nextId : Nat
deriving DecidableEq, Repr

/-- Function `compileShader` from `webgl-utils.ts`: create a shader object (may fail),
compile, and on a failed compile log the info log and delete the shader. -/
def compileShaderM (createOk compileOk : Bool) (infoLog : String)
    (nextId : Nat) : CompileResult :=
  if !createOk then
    { shader := none, events := [], console := ["Failed to create shader"],
      nextId := nextId }
  else if compileOk then
    { shader := some nextId, events := [.createShader nextId], console := [],
      nextId := nextId + 1 }
  else
    { shader := none
      events := [.createShader nextId, .deleteShader nextId]
      console := ["Shader compilation error: " ++ infoLog]
      nextId := nextId + 1 }

/-- Result of one modelled `createProgram` call (`webgl-utils.ts`). -/
structure LinkResult where
  program : Option Nat
  events : List GLEvent
  console : List String
  nextId : Nat
deriving DecidableEq, Repr

/-- Function `createProgram` from `webgl-utils.ts`: create a program object (may
fail), attach both stages, link, and on a failed link log the info log and
delete the program. It does not touch the stage handles. -/
def createProgramM (createOk linkOk : Bool) (infoLog : String)
    (nextId : Nat) : LinkResult :=
  if !createOk then
    { program := none, events := [], console := ["Failed to create program"],
      nextId := nextId }
  else if linkOk then
    { program := some nextId, events := [.createProgram nextId],
      console := [], nextId := nextId + 1 }
  else
    { program := none
      events := [.createProgram nextId, .deleteProgram nextId]
      console := ["Program link error: " ++ infoLog]
      nextId := nextId + 1 }

/-- The session fields `initShader` reads and writes: the active program ref,
the error flag, and the driver's fresh-id counter. -/
structure SessionState where
  program : Option Nat
  hasError : Bool
  nextId : Nat
deriving DecidableEq, Repr

/-- Result of one modelled `initShader` run: updated session state, resource
events in order, `console.error` lines, the error surfaced through the
`onError` callback (if any), and the boolean return value. -/
structure InitResult where
  st : SessionState
  events : List GLEvent
  console : List String
  surfaced : Option String
  ok : Bool
deriving DecidableEq, Repr

/-- Function `initShader` from `shader-canvas.tsx`: delete any existing program first,
look up the shader definition, compile the vertex stage then the fragment
stage (releasing the vertex stage if the fragment compile fails), link, then
unconditionally release both stage handles, and only then test the link
result. Every failure sets the error flag and surfaces a message. -/
def initShaderM (dev : Driver) (shaderId : String) (st : SessionState) :
    InitResult :=
  let cleanupEvents : List GLEvent :=
    match st.program with
    | some p => [.deleteProgram p]
    | none => []
  let st := { st with program := none }
  match getShaderById shaderId with
  | none =>
    let error := "Shader not found: " ++ shaderId
    { st := { st with hasError := true }, events := cleanupEvents,
      console := [error], surfaced := some error, ok := false }
  | some shaderDef =>
    let r1 := compileShaderM dev.vsCreateOk dev.vsCompileOk dev.vsLog st.nextId
    match r1.shader with
    | none =>
      let error := "Failed to compile vertex shader"
      { st := { st with hasError := true, nextId := r1.nextId }
        events := cleanupEvents ++ r1.events
        console := r1.console ++ [error]
        surfaced := some error, ok := false }
    | some vertexShader =>
      let r2 :=
        compileShaderM dev.fsCreateOk dev.fsCompileOk dev.fsLog r1.nextId
      match r2.shader with
      | none =>
        let error := "Failed to compile fragment shader: " ++ shaderDef.name
        { st := { st with hasError := true, nextId := r2.nextId }
          events := cleanupEvents ++ r1.events ++ r2.events
            ++ [.deleteShader vertexShader]
          console := r2.console ++ [error]
          surfaced := some error, ok := false }
      | some fragmentShader =>
        let r3 := createProgramM dev.progCreateOk dev.linkOk dev.linkLog
          r2.nextId
        let releaseStages : List GLEvent :=
          [.deleteShader vertexShader, .deleteShader fragmentShader]
        match r3.program with
        | none =>
          let error := "Failed to link shader program: " ++ shaderDef.name
          { st := { st with hasError := true, nextId := r3.nextId }
            events := cleanupEvents ++ r1.events ++ r2.events ++ r3.events
              ++ releaseStages
            console := r3.console ++ [error]
            surfaced := some error, ok := false }
        | some program =>
          { st := { program := some program, hasError := false,
                    nextId := r3.nextId }
            events := cleanupEvents ++ r1.events ++ r2.events ++ r3.events
              ++ releaseStages
            console := r3.console
            surfaced := none, ok := true }

/-- Ids of the stage handles created in a trace, in order. -/
def createdShaderIds (events : List GLEvent) : List Nat :=
  events.filterMap fun e =>
    match e with
    | .createShader id => some id
    | _ => none

/-- Ids of the stage handles released in a trace, in order. -/
def deletedShaderIds (events : List GLEvent) : List Nat :=
  events.filterMap fun e =>
    match e with
    | .deleteShader id => some id
    | _ => none

/-- The page-level state relevant to shader selection: the `shaderId` React
state, the `uniforms` map state, the error state, and the canvas's time
origin (`startTimeRef`). -/
structure PageState where
  shaderId : String
  uniformsMap : List (String × ℚ)
  errorMsg : Option String
  startTime : ℚ
deriving DecidableEq, Repr

/-- Function `handleShaderSelect` from the page component, combined with the
`ShaderCanvas` reinit effect it triggers. The handler runs
`setShaderId(id); setUniforms(getDefaultUniforms(shader)); setError(null)`
when the id exists. The canvas effect that calls `initShader()` and resets
`startTimeRef.current` has dependency array `[shaderId, initShader]`
(`initShader` is a `useCallback` keyed on the same `shaderId`), and React
bails out of a state update with an identical value, so the effect — and the
time-origin reset — runs only when the selected id differs from the current
one. -/
def handleShaderSelect (now : ℚ) (id : String) (st : PageState) : PageState :=
  match getShaderById id with
  | none => st
  | some shader =>
    if id = st.shaderId then
      { st with uniformsMap := getDefaultUniforms shader, errorMsg := none }
    else
      { shaderId := id
        uniformsMap := getDefaultUniforms shader
        errorMsg := none
        startTime := now }

/-- Elapsed shader time in seconds at wall-clock `now` (ms), as computed by
the render loop: `(performance.now() - startTimeRef.current) / 1000`. -/
def elapsedSeconds (now : ℚ) (st : PageState) : ℚ :=
  (now - st.startTime) / 1000

/-- The smoothed pointer lies in the unit square `[0,1] × [0,1]`. -/
def inUnitSquare (m : Mouse) : Prop :=
  0 ≤ m.x ∧ m.x ≤ 1 ∧ 0 ≤ m.y ∧ m.y ≤ 1

instance (m : Mouse) : Decidable (inUnitSquare m) := by
  unfold inUnitSquare; infer_instance

/-! ## Helper lemmas -/

/-- One FPS-monitor update preserves the 30-sample bound. -/
theorem updateFPSMonitor_length_le (now : ℚ) (m : FPSMonitor)
    (h : m.samples.length ≤ FPS_SAMPLE_SIZE) :
    (updateFPSMonitor now m).samples.length ≤ FPS_SAMPLE_SIZE := by
  unfold updateFPSMonitor
  dsimp only
  split
  · split
    · rename_i hlen
      simp only [List.length_tail, List.length_append, List.length_singleton]
      simp only [List.length_append, List.length_singleton] at hlen
      omega
    · rename_i hlen
      simp only [List.length_append, List.length_singleton]
      simp only [List.length_append, List.length_singleton, not_lt,
        Nat.not_lt] at hlen
      omega
  · simpa using h

/-- One axis of the pointer smoothing stays inside `[0, 1]`. -/
theorem lerp_mem_unit {a b : ℚ} (ha0 : 0 ≤ a) (ha1 : a ≤ 1)
    (hb0 : 0 ≤ b) (hb1 : b ≤ 1) :
    0 ≤ lerp a b 0.1 ∧ lerp a b 0.1 ≤ 1 := by
  unfold lerp
  norm_num
  constructor <;> nlinarith

/-! ## Claim theorems -/

/-- C3: for every shader of the catalog and every descriptor in its declared
parameter list, the numeric kind the render loop passes to `setUniform` for
that parameter's name (`isInt ? "int" : "float"`, via the substring
heuristic) coincides with the descriptor's declared `type` field; and the
custom-uniform upload of a frame applies exactly this kind to every entry of
the map. -/
theorem c3_theorem :
    (∀ sh ∈ SHADERS, ∀ u ∈ sh.uniforms,
      marshalKind u.name = u.type.toUniformType) ∧
    ∀ m : List (String × ℚ),
      customUploads m
        = m.map (fun e => (e.1, marshalKind e.1, UniformValue.num e.2)) :=
  ⟨by decide, fun _ => rfl⟩

/-- C3 witness: the `u_octaves` descriptor of the `noise` shader is declared
`int` and is marshalled as an integer. -/
theorem c3_witness :
    marshalKind "u_octaves" = ParamType.toUniformType ParamType.int :=
  c3_theorem.1 noiseShader (by simp [SHADERS])
    { name := "u_octaves", label := "Octaves", type := .int,
      min := 1, max := 6, step := 1, defaultValue := 4 }
    (by simp [noiseShader])

/-- C4 counterexample: with the current position already at the (constant)
target — e.g. the initial state `(0.5, 0.5)` with target `(0.5, 0.5)` — the
frame update leaves the position unchanged and the distance to the target is
`0` before and after, so `|current - target|` is not strictly decreasing on
that frame. -/
theorem c4_counterexample :
    mouseStep ⟨0.5, 0.5⟩ ⟨0.5, 0.5⟩ = ⟨0.5, 0.5⟩ ∧
    ¬ |(mouseStep ⟨0.5, 0.5⟩ ⟨0.5, 0.5⟩).x - (0.5 : ℚ)|
        < |(0.5 : ℚ) - 0.5| := by
  constructor
  · show Mouse.mk _ _ = _
    norm_num [mouseStep, lerp]
  · norm_num [mouseStep, lerp]

/-- C4 (amended): each frame update replaces the current position with
`current + 0.1 * (target - current)` on each axis, and `|current - target|`
is multiplied by exactly `0.9`, hence strictly decreasing on every frame on
which current ≠ target on that axis (once current equals the target the
distance stays `0`). -/
theorem c4_theorem (cur tgt : Mouse) :
    mouseStep cur tgt
      = ⟨cur.x + 0.1 * (tgt.x - cur.x), cur.y + 0.1 * (tgt.y - cur.y)⟩ ∧
    (∀ a b : ℚ, |lerp a b 0.1 - b| = 0.9 * |a - b|) ∧
    (cur.x ≠ tgt.x →
      |(mouseStep cur tgt).x - tgt.x| < |cur.x - tgt.x|) ∧
    (cur.y ≠ tgt.y →
      |(mouseStep cur tgt).y - tgt.y| < |cur.y - tgt.y|) := by
  have key : ∀ a b : ℚ, |lerp a b 0.1 - b| = 0.9 * |a - b| := by
    intro a b
    have h : lerp a b 0.1 - b = 0.9 * (a - b) := by unfold lerp; ring
    rw [h, abs_mul, abs_of_pos (by norm_num : (0 : ℚ) < 0.9)]
  have dec : ∀ a b : ℚ, a ≠ b → |lerp a b 0.1 - b| < |a - b| := by
    intro a b hab
    rw [key a b]
    have hpos : 0 < |a - b| := abs_pos.mpr (sub_ne_zero.mpr hab)
    nlinarith
  refine ⟨?_, key, fun h => dec _ _ h, fun h => dec _ _ h⟩
  simp only [mouseStep, lerp, Mouse.mk.injEq]
  constructor <;> ring

/-- C4 witness: from current `(0, 0)` toward target `(1, 1)` the distance on
the x-axis strictly decreases in one frame. -/
theorem c4_witness :
    |(mouseStep ⟨0, 0⟩ ⟨1, 1⟩).x - (1 : ℚ)| < |(0 : ℚ) - 1| :=
  (c4_theorem ⟨0, 0⟩ ⟨1, 1⟩).2.2.1 (by norm_num)

/-- C5: on every frame executed with the error flag set, the loop leaves all
session state untouched, clears to the fixed dark fallback color, performs no
uniform upload and no draw call, and still reschedules itself. -/
theorem c5_theorem (now : ℚ) (st : RenderState) (h : st.hasError = true) :
    (renderFrame now st).1 = st ∧
    (renderFrame now st).2.cleared = some darkFallback ∧
    (renderFrame now st).2.uploads = [] ∧
    (renderFrame now st).2.drew = false ∧
    (renderFrame now st).2.rescheduled = true := by
  simp [renderFrame, h]

/-- C5 witness: a concrete degraded frame. -/
theorem c5_witness :
    (renderFrame 16
      { program := some 1, vao := some 1, hasError := true, startTime := 0,
        targetMouse := ⟨0.5, 0.5⟩, currentMouse := ⟨0.5, 0.5⟩,
        fps := createFPSMonitor 0, uniformsMap := [("u_speed", 1)],
        canvasW := 800, canvasH := 600 }).1
      = { program := some 1, vao := some 1, hasError := true, startTime := 0,
          targetMouse := ⟨0.5, 0.5⟩, currentMouse := ⟨0.5, 0.5⟩,
          fps := createFPSMonitor 0, uniformsMap := [("u_speed", 1)],
          canvasW := 800, canvasH := 600 } ∧
    (renderFrame 16
      { program := some 1, vao := some 1, hasError := true, startTime := 0,
        targetMouse := ⟨0.5, 0.5⟩, currentMouse := ⟨0.5, 0.5⟩,
        fps := createFPSMonitor 0, uniformsMap := [("u_speed", 1)],
        canvasW := 800, canvasH := 600 }).2.cleared = some darkFallback ∧
    (renderFrame 16
      { program := some 1, vao := some 1, hasError := true, startTime := 0,
        targetMouse := ⟨0.5, 0.5⟩, currentMouse := ⟨0.5, 0.5⟩,
        fps := createFPSMonitor 0, uniformsMap := [("u_speed", 1)],
        canvasW := 800, canvasH := 600 }).2.uploads = [] ∧
    (renderFrame 16
      { program := some 1, vao := some 1, hasError := true, startTime := 0,
        targetMouse := ⟨0.5, 0.5⟩, currentMouse := ⟨0.5, 0.5⟩,
        fps := createFPSMonitor 0, uniformsMap := [("u_speed", 1)],
        canvasW := 800, canvasH := 600 }).2.drew = false ∧
    (renderFrame 16
      { program := some 1, vao := some 1, hasError := true, startTime := 0,
        targetMouse := ⟨0.5, 0.5⟩, currentMouse := ⟨0.5, 0.5⟩,
        fps := createFPSMonitor 0, uniformsMap := [("u_speed", 1)],
        canvasW := 800, canvasH := 600 }).2.rescheduled = true :=
  c5_theorem 16 _ rfl

/-- C9: one FPS-monitor update preserves the bound of `FPS_SAMPLE_SIZE = 30`
stored samples, and every monitor reachable from `createFPSMonitor` by any
sequence of updates satisfies the bound. -/
theorem c9_theorem (now : ℚ) (m : FPSMonitor)
    (h : m.samples.length ≤ FPS_SAMPLE_SIZE) :
    (updateFPSMonitor now m).samples.length ≤ FPS_SAMPLE_SIZE ∧
    ∀ (t0 : ℚ) (times : List ℚ),
      (times.foldl (fun acc t => updateFPSMonitor t acc)
        (createFPSMonitor t0)).samples.length ≤ FPS_SAMPLE_SIZE := by
  refine ⟨updateFPSMonitor_length_le now m h, fun t0 times => ?_⟩
  have inv : ∀ (mm : FPSMonitor), mm.samples.length ≤ FPS_SAMPLE_SIZE →
      (times.foldl (fun acc t => updateFPSMonitor t acc) mm).samples.length
        ≤ FPS_SAMPLE_SIZE := by
    induction times with
    | nil => intro mm hmm; simpa using hmm
    | cons t ts ih =>
      intro mm hmm
      exact ih _ (updateFPSMonitor_length_le t mm hmm)
  exact inv _ (by simp [createFPSMonitor, FPS_SAMPLE_SIZE])

/-- C9 witness: a concrete update from the initial monitor. -/
theorem c9_witness :
    (updateFPSMonitor 16 (createFPSMonitor 0)).samples.length
        ≤ FPS_SAMPLE_SIZE ∧
    ∀ (t0 : ℚ) (times : List ℚ),
      (times.foldl (fun acc t => updateFPSMonitor t acc)
        (createFPSMonitor t0)).samples.length ≤ FPS_SAMPLE_SIZE :=
  c9_theorem 16 (createFPSMonitor 0) (by decide)

/-- C10: starting from the initial smoothed position `(0.5, 0.5)`, if every
observed target lies in the unit square then the smoothed position is still
in the unit square after any sequence of frame updates; and on every normal
frame the value delivered as `u_mouse` is exactly the freshly smoothed
position. -/
theorem c10_theorem (targets : List Mouse) (now : ℚ) (st : RenderState)
    (h : ∀ t ∈ targets, inUnitSquare t)
    (hp : st.program.isSome = true) (hv : st.vao.isSome = true)
    (he : st.hasError = false) :
    inUnitSquare (targets.foldl mouseStep ⟨0.5, 0.5⟩) ∧
    ("u_mouse", UniformType.vec2,
        UniformValue.vec [(mouseStep st.currentMouse st.targetMouse).x,
          (mouseStep st.currentMouse st.targetMouse).y])
      ∈ (renderFrame now st).2.uploads := by
  constructor
  · have inv : ∀ (ts : List Mouse) (cur : Mouse),
        (∀ t ∈ ts, inUnitSquare t) → inUnitSquare cur →
        inUnitSquare (ts.foldl mouseStep cur) := by
      intro ts
      induction ts with
      | nil => intro cur _ hcur; simpa using hcur
      | cons t ts ih =>
        intro cur hts hcur
        refine ih _ (fun t' ht' => hts t' (List.mem_cons_of_mem _ ht')) ?_
        have ht := hts t (List.mem_cons_self t ts)
        obtain ⟨hx0, hx1, hy0, hy1⟩ := hcur
        obtain ⟨tx0, tx1, ty0, ty1⟩ := ht
        obtain ⟨hx0', hx1'⟩ := lerp_mem_unit hx0 hx1 tx0 tx1
        obtain ⟨hy0', hy1'⟩ := lerp_mem_unit hy0 hy1 ty0 ty1
        exact ⟨hx0', hx1', hy0', hy1'⟩
    exact inv targets ⟨0.5, 0.5⟩ h (by constructor <;> norm_num)
  · obtain ⟨p, hp'⟩ := Option.isSome_iff_exists.mp hp
    obtain ⟨v, hv'⟩ := Option.isSome_iff_exists.mp hv
    simp [renderFrame, hp', hv', he, mouseStep]

/-- C10 witness: two extreme in-range targets keep the smoothed position in
the unit square, and a concrete normal frame uploads the smoothed position as
`u_mouse`. -/
theorem c10_witness :
    inUnitSquare ([⟨1, 0⟩, ⟨0, 1⟩].foldl mouseStep ⟨0.5, 0.5⟩) ∧
    ("u_mouse", UniformType.vec2,
        UniformValue.vec
          [(mouseStep ⟨0.5, 0.5⟩ ⟨1, 0⟩).x, (mouseStep ⟨0.5, 0.5⟩ ⟨1, 0⟩).y])
      ∈ (renderFrame 16
          { program := some 1, vao := some 1, hasError := false,
            startTime := 16, targetMouse := ⟨1, 0⟩,
            currentMouse := ⟨0.5, 0.5⟩, fps := createFPSMonitor 16,
            uniformsMap := [], canvasW := 800,
            canvasH := 600 }).2.uploads :=
  c10_theorem [⟨1, 0⟩, ⟨0, 1⟩] 16
    { program := some 1, vao := some 1, hasError := false, startTime := 16,
      targetMouse := ⟨1, 0⟩, currentMouse := ⟨0.5, 0.5⟩,
      fps := createFPSMonitor 16, uniformsMap := [], canvasW := 800,
      canvasH := 600 }
    (by decide) rfl rfl rfl

/-- C1 counterexample: the `plasma` shader declares `u_speed` with default
value `1`, yet a normal frame rendered with an empty `ParameterValues` map
performs no upload at all for `u_speed` — the render core does not fall back
to the descriptor's `defaultValue` for omitted keys. -/
theorem c1_counterexample :
    plasmaShader ∈ SHADERS ∧
    (plasmaShader.uniforms.map (fun u => (u.name, u.defaultValue))).head?
      = some ("u_speed", 1) ∧
    (renderFrame 16
      { program := some 1, vao := some 1, hasError := false, startTime := 16,
        targetMouse := ⟨0.5, 0.5⟩, currentMouse := ⟨0.5, 0.5⟩,
        fps := createFPSMonitor 16, uniformsMap := [], canvasW := 800,
        canvasH := 600 }).2.drew = true ∧
    ((renderFrame 16
      { program := some 1, vao := some 1, hasError := false, startTime := 16,
        targetMouse := ⟨0.5, 0.5⟩, currentMouse := ⟨0.5, 0.5⟩,
        fps := createFPSMonitor 16, uniformsMap := [], canvasW := 800,
        canvasH := 600 }).2.uploads.filter
          (fun e => e.1 == "u_speed")) = [] := by
  refine ⟨by simp [SHADERS], by simp [plasmaShader], ?_, ?_⟩ <;>
    simp [renderFrame, customUploads, mouseStep, lerp, updateFPSMonitor,
      createFPSMonitor]

/-- C1 (amended): the per-frame custom-uniform upload visits exactly the
entries present in the supplied map — a declared parameter whose key is
omitted is not uploaded at all that frame (the descriptor's `defaultValue` is
consulted only by the UI slider display); and an entry whose key the active
program does not declare never causes a failure — `setUniform` resolves no
location for it and issues no command. -/
theorem c1_theorem (m : List (String × ℚ)) (u : ShaderUniform)
    (locs : String → Option Nat) (name : String) (ty : UniformType)
    (v : UniformValue)
    (hm : m.lookup u.name = none) (hl : locs name = none) :
    (customUploads m).filter (fun e => e.1 == u.name) = [] ∧
    displayValue m u = u.defaultValue ∧
    setUniform locs name ty v = [] := by
  refine ⟨?_, ?_, by simp [setUniform, hl]⟩
  · induction m with
    | nil => rfl
    | cons e rest ih =>
      rw [List.lookup] at hm
      by_cases hkey : u.name == e.1
      · simp [hkey] at hm
      · simp only [customUploads, List.map_cons, List.filter_cons]
        have hkey' : (e.1 == u.name) = false := by
          cases hb : e.1 == u.name
          · rfl
          · exact absurd (by simpa using (beq_iff_eq.mp hb).symm)
              (by simpa using hkey)
        simp only [hkey', Bool.false_eq_true, if_false]
        have hm' : rest.lookup u.name = none := by
          simpa [hkey] using hm
        simpa [customUploads] using ih hm'
  · unfold displayValue
    rw [hm]

/-- C1 witness: a map containing only `u_zoom` neither uploads `u_speed` nor
fails on an undeclared key; the slider for `u_speed` falls back to the
default `1`. -/
theorem c1_witness :
    (customUploads [("u_zoom", 2)]).filter (fun e => e.1 == "u_speed") = []
      ∧
    displayValue [("u_zoom", 2)]
      { name := "u_speed", label := "Speed", type := .float, min := 0.5,
        max := 2, step := 0.1, defaultValue := 1 } = 1 ∧
    setUniform (fun _ => none) "u_bogus" UniformType.float
      (UniformValue.num 3) = [] :=
  c1_theorem [("u_zoom", 2)]
    { name := "u_speed", label := "Speed", type := .float, min := 0.5,
      max := 2, step := 0.1, defaultValue := 1 }
    (fun _ => none) "u_bogus" UniformType.float (UniformValue.num 3)
    (by decide) rfl

/-- C2 counterexample: a session holding active program `5` switches to
`plasma` under a driver that fails the fragment compile; `initShader` deletes
program `5` at the start of the run, so after the failed switch the session
holds no program at all — the previously active program is not left installed
and usable. -/
theorem c2_counterexample :
    (initShaderM
      { vsCreateOk := true, vsCompileOk := true, fsCreateOk := true,
        fsCompileOk := false, progCreateOk := true, linkOk := true,
        vsLog := "", fsLog := "ERROR: 0:4: syntax error", linkLog := "" }
      "plasma"
      { program := some 5, hasError := false, nextId := 7 }).st.program
      = none ∧
    GLEvent.deleteProgram 5
      ∈ (initShaderM
        { vsCreateOk := true, vsCompileOk := true, fsCreateOk := true,
          fsCompileOk := false, progCreateOk := true, linkOk := true,
          vsLog := "", fsLog := "ERROR: 0:4: syntax error", linkLog := "" }
        "plasma"
        { program := some 5, hasError := false, nextId := 7 }).events ∧
    (initShaderM
      { vsCreateOk := true, vsCompileOk := true, fsCreateOk := true,
        fsCompileOk := false, progCreateOk := true, linkOk := true,
        vsLog := "", fsLog := "ERROR: 0:4: syntax error", linkLog := "" }
      "plasma"
      { program := some 5, hasError := false, nextId := 7 }).surfaced
      = some "Failed to compile fragment shader: Plasma Waves" := by
  refine ⟨?_, ?_, ?_⟩ <;>
    simp [initShaderM, compileShaderM, createProgramM, getShaderById,
      SHADERS, plasmaShader, sphereShader, noiseShader, kaleidoscopeShader,
      auroraShader]

/-- C2 (amended): a switch whose fragment source fails to compile surfaces
the fragment-compile error, returns failure and sets the error flag; but the
previously active program is deleted at the start of the switch (before any
compilation), so on failure the session is left with no active program
(degraded) — not with the old one — until a subsequent successful switch
installs a fresh program and clears the error. -/
theorem c2_theorem (dev dev' : Driver) (sid : String) (st : SessionState)
    (p : Nat) (sd : ShaderDefinition)
    (hsd : getShaderById sid = some sd) (hp : st.program = some p)
    (h1 : dev.vsCreateOk = true) (h2 : dev.vsCompileOk = true)
    (h3 : dev.fsCreateOk = true) (h4 : dev.fsCompileOk = false)
    (g1 : dev'.vsCreateOk = true) (g2 : dev'.vsCompileOk = true)
    (g3 : dev'.fsCreateOk = true) (g4 : dev'.fsCompileOk = true)
    (g5 : dev'.progCreateOk = true) (g6 : dev'.linkOk = true) :
    (initShaderM dev sid st).surfaced
      = some ("Failed to compile fragment shader: " ++ sd.name) ∧
    (initShaderM dev sid st).ok = false ∧
    (initShaderM dev sid st).st.hasError = true ∧
    (initShaderM dev sid st).st.program = none ∧
    GLEvent.deleteProgram p ∈ (initShaderM dev sid st).events ∧
    (initShaderM dev' sid (initShaderM dev sid st).st).st.program.isSome
      = true ∧
    (initShaderM dev' sid (initShaderM dev sid st).st).st.hasError
      = false := by
  refine ⟨?_, ?_, ?_, ?_, ?_, ?_, ?_⟩ <;>
    simp [initShaderM, compileShaderM, createProgramM, hsd, hp,
      h1, h2, h3, h4, g1, g2, g3, g4, g5, g6]

/-- C2 witness: the amended statement at the concrete driver pair and
session of the counterexample scenario. -/
theorem c2_witness :
    (initShaderM
      { vsCreateOk := true, vsCompileOk := true, fsCreateOk := true,
        fsCompileOk := false, progCreateOk := true, linkOk := true,
        vsLog := "", fsLog := "bad", linkLog := "" }
      "sphere"
      { program := some 5, hasError := false, nextId := 7 }).surfaced
      = some ("Failed to compile fragment shader: "
          ++ sphereShader.name) ∧
    (initShaderM
      { vsCreateOk := true, vsCompileOk := true, fsCreateOk := true,
        fsCompileOk := false, progCreateOk := true, linkOk := true,
        vsLog := "", fsLog := "bad", linkLog := "" }
      "sphere"
      { program := some 5, hasError := false, nextId := 7 }).ok = false ∧
    (initShaderM
      { vsCreateOk := true, vsCompileOk := true, fsCreateOk := true,
        fsCompileOk := false, progCreateOk := true, linkOk := true,
        vsLog := "", fsLog := "bad", linkLog := "" }
      "sphere"
      { program := some 5, hasError := false, nextId := 7 }).st.hasError
      = true ∧
    (initShaderM
      { vsCreateOk := true, vsCompileOk := true, fsCreateOk := true,
        fsCompileOk := false, progCreateOk := true, linkOk := true,
        vsLog := "", fsLog := "bad", linkLog := "" }
      "sphere"
      { program := some 5, hasError := false, nextId := 7 }).st.program
      = none ∧
    GLEvent.deleteProgram 5
      ∈ (initShaderM
        { vsCreateOk := true, vsCompileOk := true, fsCreateOk := true,
          fsCompileOk := false, progCreateOk := true, linkOk := true,
          vsLog := "", fsLog := "bad", linkLog := "" }
        "sphere"
        { program := some 5, hasError := false, nextId := 7 }).events ∧
    (initShaderM
      { vsCreateOk := true, vsCompileOk := true, fsCreateOk := true,
        fsCompileOk := true, progCreateOk := true, linkOk := true,
        vsLog := "", fsLog := "", linkLog := "" }
      "sphere"
      (initShaderM
        { vsCreateOk := true, vsCompileOk := true, fsCreateOk := true,
          fsCompileOk := false, progCreateOk := true, linkOk := true,
          vsLog := "", fsLog := "bad", linkLog := "" }
        "sphere"
        { program := some 5, hasError := false,
          nextId := 7 }).st).st.program.isSome = true ∧
    (initShaderM
      { vsCreateOk := true, vsCompileOk := true, fsCreateOk := true,
        fsCompileOk := true, progCreateOk := true, linkOk := true,
        vsLog := "", fsLog := "", linkLog := "" }
      "sphere"
      (initShaderM
        { vsCreateOk := true, vsCompileOk := true, fsCreateOk := true,
          fsCompileOk := false, progCreateOk := true, linkOk := true,
          vsLog := "", fsLog := "bad", linkLog := "" }
        "sphere"
        { program := some 5, hasError := false,
          nextId := 7 }).st).st.hasError = false :=
  c2_theorem
    { vsCreateOk := true, vsCompileOk := true, fsCreateOk := true,
      fsCompileOk := false, progCreateOk := true, linkOk := true,
      vsLog := "", fsLog := "bad", linkLog := "" }
    { vsCreateOk := true, vsCompileOk := true, fsCreateOk := true,
      fsCompileOk := true, progCreateOk := true, linkOk := true,
      vsLog := "", fsLog := "", linkLog := "" }
    "sphere" { program := some 5, hasError := false, nextId := 7 }
    5 sphereShader rfl rfl rfl rfl rfl rfl rfl rfl rfl rfl rfl rfl

/-- C7 counterexample: under a driver whose fragment compile fails with the
diagnostic `"ERROR: 0:12: unexpected token"`, the error surfaced to the
caller is the fixed message `"Failed to compile fragment shader: Fractal
Noise"`, which does not contain the diagnostic text — the diagnostic is only
written to the console log. -/
theorem c7_counterexample :
    (initShaderM
      { vsCreateOk := true, vsCompileOk := true, fsCreateOk := true,
        fsCompileOk := false, progCreateOk := true, linkOk := true,
        vsLog := "", fsLog := "ERROR: 0:12: unexpected token",
        linkLog := "" }
      "noise"
      { program := none, hasError := false, nextId := 0 }).surfaced
      = some "Failed to compile fragment shader: Fractal Noise" ∧
    strIncludes "Failed to compile fragment shader: Fractal Noise"
      "ERROR: 0:12: unexpected token" = false ∧
    ("Shader compilation error: " ++ "ERROR: 0:12: unexpected token")
      ∈ (initShaderM
        { vsCreateOk := true, vsCompileOk := true, fsCreateOk := true,
          fsCompileOk := false, progCreateOk := true, linkOk := true,
          vsLog := "", fsLog := "ERROR: 0:12: unexpected token",
          linkLog := "" }
        "noise"
        { program := none, hasError := false, nextId := 0 }).console := by
  refine ⟨?_, by decide, ?_⟩ <;>
    simp [initShaderM, compileShaderM, createProgramM, getShaderById,
      SHADERS, plasmaShader, sphereShader, noiseShader, kaleidoscopeShader,
      auroraShader]

/-- C7 (amended): every program-construction failure surfaces an error whose
fixed text identifies the failing stage (vertex compile, fragment compile, or
link); the compiler/linker diagnostic text, however, is only written to the
console log and is not carried by the surfaced error. -/
theorem c7_theorem (dev : Driver) (sid : String) (st : SessionState)
    (sd : ShaderDefinition) (hsd : getShaderById sid = some sd) :
    (dev.vsCreateOk = true → dev.vsCompileOk = false →
      (initShaderM dev sid st).surfaced
          = some "Failed to compile vertex shader" ∧
      ("Shader compilation error: " ++ dev.vsLog)
        ∈ (initShaderM dev sid st).console) ∧
    (dev.vsCreateOk = true → dev.vsCompileOk = true →
      dev.fsCreateOk = true → dev.fsCompileOk = false →
      (initShaderM dev sid st).surfaced
          = some ("Failed to compile fragment shader: " ++ sd.name) ∧
      ("Shader compilation error: " ++ dev.fsLog)
        ∈ (initShaderM dev sid st).console) ∧
    (dev.vsCreateOk = true → dev.vsCompileOk = true →
      dev.fsCreateOk = true → dev.fsCompileOk = true →
      dev.progCreateOk = true → dev.linkOk = false →
      (initShaderM dev sid st).surfaced
          = some ("Failed to link shader program: " ++ sd.name) ∧
      ("Program link error: " ++ dev.linkLog)
        ∈ (initShaderM dev sid st).console) := by
  refine ⟨fun h1 h2 => ?_, fun h1 h2 h3 h4 => ?_,
    fun h1 h2 h3 h4 h5 h6 => ?_⟩ <;>
    simp [initShaderM, compileShaderM, createProgramM, hsd, *]

/-- C7 witness: a link failure surfaces the link-stage message and logs the
linker diagnostic. -/
theorem c7_witness :
    (initShaderM
      { vsCreateOk := true, vsCompileOk := true, fsCreateOk := true,
        fsCompileOk := true, progCreateOk := true, linkOk := false,
        vsLog := "", fsLog := "", linkLog := "link diag" }
      "aurora"
      { program := none, hasError := false, nextId := 0 }).surfaced
      = some ("Failed to link shader program: " ++ auroraShader.name) ∧
    ("Program link error: " ++ "link diag")
      ∈ (initShaderM
        { vsCreateOk := true, vsCompileOk := true, fsCreateOk := true,
          fsCompileOk := true, progCreateOk := true, linkOk := false,
          vsLog := "", fsLog := "", linkLog := "link diag" }
        "aurora"
        { program := none, hasError := false, nextId := 0 }).console :=
  (c7_theorem
    { vsCreateOk := true, vsCompileOk := true, fsCreateOk := true,
      fsCompileOk := true, progCreateOk := true, linkOk := false,
      vsLog := "", fsLog := "", linkLog := "link diag" }
    "aurora" { program := none, hasError := false, nextId := 0 }
    auroraShader rfl).2.2 rfl rfl rfl rfl rfl rfl

/-- C8 counterexample: with `plasma` already active and a time origin of
`0` ms, selecting `"plasma"` again at `t = 5000` ms and once more at
`t = 9000` ms leaves the time origin at `0` both times, so elapsed time right
after the two selections is `5` s and `9` s — not reset to (approximately)
zero on either selection. -/
theorem c8_counterexample :
    (handleShaderSelect 5000 "plasma"
      { shaderId := "plasma", uniformsMap := getDefaultUniforms plasmaShader,
        errorMsg := none, startTime := 0 }).startTime = 0 ∧
    elapsedSeconds 5000
      (handleShaderSelect 5000 "plasma"
        { shaderId := "plasma",
          uniformsMap := getDefaultUniforms plasmaShader,
          errorMsg := none, startTime := 0 }) = 5 ∧
    (handleShaderSelect 9000 "plasma"
      (handleShaderSelect 5000 "plasma"
        { shaderId := "plasma",
          uniformsMap := getDefaultUniforms plasmaShader,
          errorMsg := none, startTime := 0 })).startTime = 0 ∧
    elapsedSeconds 9000
      (handleShaderSelect 9000 "plasma"
        (handleShaderSelect 5000 "plasma"
          { shaderId := "plasma",
            uniformsMap := getDefaultUniforms plasmaShader,
            errorMsg := none, startTime := 0 })) = 9 := by
  refine ⟨?_, ?_, ?_, ?_⟩ <;>
    norm_num [handleShaderSelect, elapsedSeconds, getShaderById, SHADERS,
      plasmaShader, sphereShader, noiseShader, kaleidoscopeShader,
      auroraShader]

/-- C8 (amended): selecting the id of a catalog shader that is already
active does not reset the time origin — it only resets the parameter values
to the shader's defaults and clears the error state, because the canvas
reinit effect (which resets the origin) runs only when the shader id value
changes; selecting a different catalog shader id does reset elapsed time to
zero. -/
theorem c8_theorem (now : ℚ) (id : String) (st : PageState)
    (sh : ShaderDefinition) (hsh : getShaderById id = some sh) :
    (id = st.shaderId →
      (handleShaderSelect now id st).startTime = st.startTime ∧
      (handleShaderSelect now id st).uniformsMap = getDefaultUniforms sh ∧
      (handleShaderSelect now id st).errorMsg = none) ∧
    (id ≠ st.shaderId →
      (handleShaderSelect now id st).startTime = now ∧
      elapsedSeconds now (handleShaderSelect now id st) = 0) := by
  constructor
  · intro heq
    subst heq
    simp [handleShaderSelect, hsh]
  · intro hne
    simp [handleShaderSelect, elapsedSeconds, hsh, hne]

/-- C8 witness: selecting the already-active `plasma` keeps the origin at
`0`; the same-instant selection of `sphere` from `plasma` resets elapsed time
to zero. -/
theorem c8_witness :
    ((handleShaderSelect 5000 "plasma"
      { shaderId := "plasma", uniformsMap := [], errorMsg := none,
        startTime := 0 }).startTime = 0 ∧
      (handleShaderSelect 5000 "plasma"
        { shaderId := "plasma", uniformsMap := [], errorMsg := none,
          startTime := 0 }).uniformsMap = getDefaultUniforms plasmaShader ∧
      (handleShaderSelect 5000 "plasma"
        { shaderId := "plasma", uniformsMap := [], errorMsg := none,
          startTime := 0 }).errorMsg = none) ∧
    ((handleShaderSelect 5000 "sphere"
      { shaderId := "plasma", uniformsMap := [], errorMsg := none,
        startTime := 0 }).startTime = 5000 ∧
      elapsedSeconds 5000
        (handleShaderSelect 5000 "sphere"
          { shaderId := "plasma", uniformsMap := [], errorMsg := none,
            startTime := 0 }) = 0) :=
  ⟨(c8_theorem 5000 "plasma"
      { shaderId := "plasma", uniformsMap := [], errorMsg := none,
        startTime := 0 } plasmaShader rfl).1 rfl,
   (c8_theorem 5000 "sphere"
      { shaderId := "plasma", uniformsMap := [], errorMsg := none,
        startTime := 0 } sphereShader rfl).2 (by decide)⟩

/-- C6: for every driver verdict and every prior session state, the stage
(shader) handles created during an `initShader` run are pairwise distinct and
the multiset of released stage handles equals the multiset of created ones —
every created stage handle is released exactly once before the run returns,
whatever the outcome (including after a failed or successful link). -/
theorem c6_theorem (dev : Driver) (sid : String) (st : SessionState) :
    (createdShaderIds (initShaderM dev sid st).events).Nodup ∧
    (createdShaderIds (initShaderM dev sid st).events).Perm
      (deletedShaderIds (initShaderM dev sid st).events) := by
  obtain ⟨a, b, c, d, e, f, l1, l2, l3⟩ := dev
  obtain ⟨po, he, n⟩ := st
  rcases hsd : getShaderById sid with _ | sd <;>
    rcases po with _ | p <;>
      cases a <;> cases b <;> cases c <;> cases d <;> cases e <;> cases f <;>
        simp [initShaderM, compileShaderM, createProgramM, hsd,
          createdShaderIds, deletedShaderIds] <;>
          exact List.Perm.swap _ _ _

end ShaderGallery
